import Mathlib

/-!
Verification of the execution-accuracy evaluation harness
(`evaluation_accuracy.py`): a shallow embedding of the result comparator
(`compare_results`), the query executor (`execute_mongo_query` with its
`clean_query` safety pre-check), the per-record batch loop, and the final
report, together with theorems settling the specification claims.

Modelling conventions:
* Decoded query results (the output of `json.loads`) are `JValue`, the
  universe of JSON values.  Numbers are modelled as integers: no claim
  distinguishes integral from fractional floats, and the comparator only
  ever tests numeric equality.
* The mongo-shell subprocess is an oracle (`Backend`): it receives the
  database name and the query text and yields the stdout, the return code
  and the result of `json.loads` applied to the stripped stdout (`none`
  standing for a `JSONDecodeError`), or one of the two exception outcomes
  caught by the source (`FileNotFoundError`, generic `Exception`).
* Python exceptions that the source does not catch (the `AttributeError`
  raised by `clean_query` on a `None` query) surface as `Except.error`.
* Recursive functions over `JValue` that are consumed by kernel
  evaluation are written with an explicit fuel argument bounded by the
  structural size `jsize`; fuel decreases by one per nesting level while
  `jsize` decreases by at least one, so the fuel never runs out.
-/

/-- A JSON value as produced by `json.loads`: the dynamic values the
comparator receives.  Objects are association lists in insertion order,
mirroring Python dicts (which, coming from `json.loads`, never hold
duplicate keys). -/
inductive JValue where
  | null
  | bool (b : Bool)
  | num (n : Int)
  | str (s : String)
  | arr (elems : List JValue)
  | obj (fields : List (String × JValue))

mutual
/-- Structural size of a `JValue`, used as a fuel bound for the fueled
recursions below. -/
def jsize : JValue → Nat
  | .null => 1
  | .bool _ => 1
  | .num _ => 1
  | .str _ => 1
  | .arr xs => 1 + jsizeList xs
  | .obj fs => 1 + jsizePairs fs

def jsizeList : List JValue → Nat
  | [] => 0
  | x :: xs => jsize x + jsizeList xs

def jsizePairs : List (String × JValue) → Nat
  | [] => 0
  | (_, v) :: fs => jsize v + jsizePairs fs
end

/-- Lexicographic comparison of character lists by code point, matching
how Python compares strings when sorting dict keys. -/
def charsLe : List Char → List Char → Bool
  | [], _ => true
  | _ :: _, [] => false
  | a :: as, b :: bs => if a < b then true else if b < a then false else charsLe as bs

/-- Key order used by `json.dumps(..., sort_keys=True)`. -/
def keyLe (a b : String) : Bool := charsLe a.data b.data

/-- Insert one binding into a key-sorted binding list. -/
def insertPair (p : String × JValue) : List (String × JValue) → List (String × JValue)
  | [] => [p]
  | q :: qs => if keyLe p.1 q.1 then p :: q :: qs else q :: insertPair p qs

/-- Sort an object binding list by key, modelling the `sort_keys=True`
ordering applied by `json.dumps` at each nesting level. -/
def sortPairs : List (String × JValue) → List (String × JValue)
  | [] => []
  | p :: ps => insertPair p (sortPairs ps)

/-- Does `pat` occur at the start of the list? -/
def startsWithChars : List Char → List Char → Bool
  | [], _ => true
  | _ :: _, [] => false
  | a :: as, b :: bs => a == b && startsWithChars as bs

/-- Does `pat` occur as a contiguous sublist? -/
def hasSubChars (pat : List Char) : List Char → Bool
  | [] => startsWithChars pat []
  | c :: rest => startsWithChars pat (c :: rest) || hasSubChars pat rest

/-- Python substring test `pat in s`. -/
def strContains (s pat : String) : Bool := hasSubChars pat.data s.data

/-- Python `str.lower()`.  Only ASCII letters matter here: the denylist
keywords and sentinels are ASCII. -/
def strLower (s : String) : String := String.mk (s.data.map Char.toLower)

/-- An ASCII whitespace character as stripped by Python `str.strip()`. -/
def isPyWs (c : Char) : Bool :=
  c == ' ' || c == '\t' || c == '\n' || c == '\r' || c == '\x0b' || c == '\x0c'

/-- Python `str.strip()`: remove leading and trailing whitespace. -/
def pyStrip (s : String) : String :=
  String.mk (((s.data.dropWhile isPyWs).reverse.dropWhile isPyWs).reverse)

/-- JSON string escaping for one character, as applied by `json.dumps`.
Backslash, quote and the common control characters are escaped; the
remaining control-character and non-ASCII escapes of `json.dumps` are not
modelled, as no claim exercises them. -/
def escapeChar (c : Char) : String :=
  if c = '\\' then "\\\\"
  else if c = '\"' then "\\\""
  else if c = '\n' then "\\n"
  else if c = '\t' then "\\t"
  else if c = '\r' then "\\r"
  else String.singleton c

/-- A JSON-quoted string literal as emitted by `json.dumps`. -/
def pyQuote (s : String) : String := "\"" ++ String.join (s.data.map escapeChar) ++ "\""

/-- Fueled canonical serialization: `json.dumps(x, sort_keys=True)` with
the default separators.  Object keys are sorted at every nesting level;
the fuel decreases once per nesting level. -/
def serializeF : Nat → JValue → String
  | 0, _ => ""
  | fuel + 1, v =>
    match v with
    | .null => "null"
    | .bool true => "true"
    | .bool false => "false"
    | .num n => toString n
    | .str s => pyQuote s
    | .arr xs => "[" ++ String.intercalate ", " (xs.map (serializeF fuel)) ++ "]"
    | .obj fs =>
        "\x7b" ++ String.intercalate ", "
          ((sortPairs fs).map (fun p => pyQuote p.1 ++ ": " ++ serializeF fuel p.2))
          ++ "\x7d"

/-- Canonical encoding `json.dumps(x, sort_keys=True)` of a value.
`jsize x` strictly dominates the nesting depth, so the fuel suffices. -/
def dumps (x : JValue) : String := serializeF (jsize x) x

/-- Fueled Python equality `==` on decoded values: numeric equality
identifies booleans with 0/1 (as `isinstance(True, int)` holds in
Python), lists compare pointwise, and dicts compare as unordered
key-value collections. -/
def pyEqF : Nat → JValue → JValue → Bool
  | 0, _, _ => false
  | fuel + 1, a, b =>
    match a, b with
    | .null, .null => true
    | .bool x, .bool y => x == y
    | .bool x, .num m => (if x then (1 : Int) else 0) == m
    | .num n, .bool y => n == (if y then (1 : Int) else 0)
    | .num n, .num m => n == m
    | .str x, .str y => x == y
    | .arr xs, .arr ys =>
        xs.length == ys.length && (List.zip xs ys).all (fun p => pyEqF fuel p.1 p.2)
    | .obj fs, .obj gs =>
        fs.all (fun kv => gs.any (fun kw => kv.1 == kw.1 && pyEqF fuel kv.2 kw.2)) &&
        gs.all (fun kw => fs.any (fun kv => kw.1 == kv.1 && pyEqF fuel kw.2 kv.2))
    | _, _ => false

/-- Python `==` on decoded values (fuel instantiated sufficiently). -/
def pyEq (a b : JValue) : Bool := pyEqF (jsize a + jsize b) a b

/-- Is the value a Python `str`?  (`isinstance(x, str)`). -/
def isStr : JValue → Bool
  | .str _ => true
  | _ => false

/-- Is the value Python `None`? -/
def isNull : JValue → Bool
  | .null => true
  | _ => false

/-- Is the value numeric in the sense of `isinstance(x, (int, float))`?
Booleans qualify, since `bool` subclasses `int` in Python. -/
def isNumeric : JValue → Bool
  | .num _ => true
  | .bool _ => true
  | _ => false

/-- Numeric value of a numeric `JValue` (booleans count as 0/1). -/
def numVal : JValue → Int
  | .num n => n
  | .bool true => 1
  | .bool false => 0
  | _ => 0

/-- Python set equality `set(a) == set(b)`: the two lists hold the same
elements, multiplicity ignored. -/
def pySetEq (a b : List String) : Bool :=
  a.all (fun s => b.contains s) && b.all (fun s => a.contains s)

/-- The result comparator `compare_results` of the source, translated
clause by clause: any string operand (failure sentinels and decoded
string results alike) forces a non-match, so does `None`; numerics
compare by value; lists check length, then the Python `==` fast path,
then equality of the sets of canonical encodings; every other shape
combination is a non-match. -/
def compare_results (gold_res pred_res : JValue) : Bool :=
  if isStr gold_res || isStr pred_res then false
  else if isNull gold_res || isNull pred_res then false
  else if isNumeric gold_res && isNumeric pred_res then numVal gold_res == numVal pred_res
  else
    match gold_res, pred_res with
    | .arr gl, .arr pl =>
        if gl.length != pl.length then false
        else if pyEq (.arr gl) (.arr pl) then true
        else pySetEq (gl.map dumps) (pl.map dumps)
    | _, _ => false

/-- Are the keys of a binding list pairwise distinct (every Python dict
satisfies this)? -/
def nodupKeysB : List (String × JValue) → Bool
  | [] => true
  | (k, _) :: fs => !((fs.map Prod.fst).contains k) && nodupKeysB fs

/-- Fueled formalisation of "equal up to key insertion order at every
nesting level": leaves must agree exactly, arrays pointwise, and objects
(required to have duplicate-free keys, as Python dicts do) must agree
binding-for-binding once both sides are key-sorted, with the values again
related recursively. -/
def keyPermF : Nat → JValue → JValue → Bool
  | 0, _, _ => false
  | fuel + 1, a, b =>
    match a, b with
    | .null, .null => true
    | .bool x, .bool y => x == y
    | .num n, .num m => n == m
    | .str x, .str y => x == y
    | .arr xs, .arr ys =>
        xs.length == ys.length && (List.zip xs ys).all (fun p => keyPermF fuel p.1 p.2)
    | .obj fs, .obj gs =>
        nodupKeysB fs && nodupKeysB gs && fs.length == gs.length &&
        (List.zip (sortPairs fs) (sortPairs gs)).all
          (fun p => p.1.1 == p.2.1 && keyPermF fuel p.1.2 p.2.2)
    | _, _ => false

/-- The one uncaught exception in per-record processing: `clean_query`
calls `.lower()` on its argument, which raises `AttributeError` when the
query field was missing (`None`). -/
inductive PyError where
  | attributeError (msg : String)

/-- Outcome of one mongo-shell subprocess invocation as observed by
`execute_mongo_query`: the completed process (stdout, return code, and
the result of `json.loads` on the stripped stdout, `none` standing for a
`JSONDecodeError`), or one of the two exception classes the source
catches around `subprocess.run`. -/
inductive BackendResp where
  | output (stdout : String) (returncode : Int) (decoded : Option JValue)
  | shellMissing
  | raised (msg : String)

/-- The execution backend (mongosh) as an oracle: database name and query
text in, subprocess outcome out.  The JavaScript wrapper and URI
construction of the source are absorbed into the oracle, since they only
decorate the text handed to the external process. -/
structure Backend where
  run : Option String → String → BackendResp

/-- The denylist of mutating-operation keywords from `clean_query`. -/
def forbidden : List String := ["remove", "drop", "delete", "insert", "update", "save", "write"]

/-- The safety pre-check `clean_query`: lowercase the text and reject it
(returning `None`) when any denylist keyword occurs as a substring.  A
missing query (`None`) raises `AttributeError` at `query.lower()` before
any check happens. -/
def clean_query : Option String → Except PyError (Option String)
  | none => .error (.attributeError "NoneType object has no attribute lower")
  | some q =>
    if forbidden.any (fun w => strContains (strLower q) w) then .ok none else .ok (some q)

/-- The executor `execute_mongo_query`: safety pre-check, then the
falsy-query check, then the subprocess, with each failure mode folded
into its string sentinel and a successful decode returned as the value. -/
def execute_mongo_query (backend : Backend) (db_name : Option String)
    (query : Option String) : Except PyError JValue :=
  match clean_query query with
  | .error e => .error e
  | .ok none => .ok (.str "UNSAFE_OR_EMPTY")
  | .ok (some q) =>
    if q = "" then .ok (.str "UNSAFE_OR_EMPTY")
    else
      match backend.run db_name q with
      | .shellMissing => .ok (.str "MONGOSH_NOT_FOUND")
      | .raised m => .ok (.str ("SYSTEM_ERROR: " ++ m))
      | .output stdout rc decoded =>
        let output := pyStrip stdout
        if strContains output "ERROR:" || rc != 0 then
          .ok (.str ("EXECUTION_ERROR: " ++ output))
        else
          match decoded with
          | some v => .ok v
          | none => .ok (.str "JSON_PARSE_ERROR")

/-- One input record, with every field read via `entry.get(...)` and so
possibly absent. -/
structure QueryEntry where
  question_id : Option String
  db_id : Option String
  gold_mql : Option String
  generated_mql : Option String

/-- The run accumulator: correct, total and execution-error counters. -/
structure ScoreState where
  correct_count : Nat
  total_count : Nat
  execution_errors : Nat

/-- The batch loop test that routes a record to the execution-error
tally: the predicted result is a string containing `ERROR`. -/
def isErrorStr : JValue → Bool
  | .str s => strContains s "ERROR"
  | _ => false

/-- One iteration of the batch loop: bump the total, execute gold then
predicted (an uncaught exception aborts the run), divert
`ERROR`-carrying predicted strings to the error tally, otherwise take
exactly one comparator verdict.  The diagnostic log lines are pure
output and are not modelled. -/
def processEntry (backend : Backend) (st : ScoreState) (e : QueryEntry) :
    Except PyError ScoreState :=
  let st1 : ScoreState := { st with total_count := st.total_count + 1 }
  match execute_mongo_query backend e.db_id e.gold_mql with
  | .error err => .error err
  | .ok gold_result =>
    match execute_mongo_query backend e.db_id e.generated_mql with
    | .error err => .error err
    | .ok pred_result =>
      if isErrorStr pred_result then
        .ok { st1 with execution_errors := st1.execution_errors + 1 }
      else if compare_results gold_result pred_result then
        .ok { st1 with correct_count := st1.correct_count + 1 }
      else
        .ok st1

/-- The whole batch loop over the loaded records, starting from zeroed
counters. -/
def runBatch (backend : Backend) (entries : List QueryEntry) : Except PyError ScoreState :=
  entries.foldlM (processEntry backend) ⟨0, 0, 0⟩

/-- The accuracy formula of the report:
`(correct_count / total_count) * 100 if total_count > 0 else 0`,
modelled over the exact rationals. -/
def accuracyOf (st : ScoreState) : ℚ :=
  if 0 < st.total_count then (st.correct_count : ℚ) / (st.total_count : ℚ) * 100 else 0

/-- The printed summary report: total, correct, incorrect
(printed as `total_count - correct_count`), errors, accuracy. -/
structure EvalReport where
  total : Nat
  correct : Nat
  incorrect : Nat
  errors : Nat
  accuracy : ℚ

/-- Assemble the report exactly as the four `print` lines do. -/
def makeReport (st : ScoreState) : EvalReport :=
  ⟨st.total_count, st.correct_count, st.total_count - st.correct_count,
    st.execution_errors, accuracyOf st⟩

/-! ### Concrete sample backends and records used by witnesses and
counterexamples -/

/-- A backend on which every query succeeds with an empty result list. -/
def bProbe : Backend := ⟨fun _ _ => .output "[]" 0 (some (.arr []))⟩

/-- A backend on which the query `db.a.find()` fails with a runtime
error while every other query succeeds with an empty result list. -/
def bGoldFail : Backend :=
  ⟨fun _ q => if q = "db.a.find()" then .output "ERROR: boom" 0 none
              else .output "[]" 0 (some (.arr []))⟩

/-- A backend on which every query succeeds and decodes to the JSON
string value `"hi"`. -/
def bStr : Backend := ⟨fun _ _ => .output "\"hi\"" 0 (some (.str "hi"))⟩

/-- A record whose gold query fails on `bGoldFail` while its predicted
query succeeds. -/
def eGoldFail : QueryEntry := ⟨some "q1", some "db1", some "db.a.find()", some "db.b.find()"⟩

/-- A record whose predicted query is rejected by the safety pre-check
(denylist keyword in the text). -/
def eUnsafePred : QueryEntry := ⟨some "q2", some "db1", some "db.a.find()", some "db.a.drop()"⟩

/-- A record whose two queries are both safe (used by witnesses). -/
def eSafe : QueryEntry := ⟨some "q0", some "db1", some "db.a.find()", some "db.b.find()"⟩

/-! ### Helper lemmas -/

theorem compare_str_left (s : String) (v : JValue) : compare_results (.str s) v = false := by
  simp [compare_results, isStr]

theorem compare_str_right (s : String) (v : JValue) : compare_results v (.str s) = false := by
  simp [compare_results, isStr]

theorem contains_of_mem {a : String} {l : List String} (h : a ∈ l) : l.contains a = true := by
  simpa [List.contains] using List.elem_iff.mpr h

theorem pySetEq_of_perm {A B : List String} (h : A.Perm B) : pySetEq A B = true := by
  simp only [pySetEq, Bool.and_eq_true, List.all_eq_true]
  exact ⟨fun s hs => contains_of_mem (h.mem_iff.mp hs),
         fun s hs => contains_of_mem (h.mem_iff.mpr hs)⟩

theorem map_eq_of_zip {α β : Type} (f g : α → β) :
    ∀ (xs ys : List α), xs.length = ys.length →
      (∀ p ∈ List.zip xs ys, f p.1 = g p.2) → xs.map f = ys.map g := by
  intro xs
  induction xs with
  | nil =>
    intro ys h _
    cases ys with
    | nil => rfl
    | cons y ys => simp at h
  | cons x xs ih =>
    intro ys h hp
    cases ys with
    | nil => simp at h
    | cons y ys =>
      simp only [List.zip_cons_cons, List.mem_cons] at hp
      simp only [List.map_cons]
      rw [hp (x, y) (Or.inl rfl), ih ys (by simpa using h) (fun p hpmem => hp p (Or.inr hpmem))]

theorem insertPair_perm (p : String × JValue) (l : List (String × JValue)) :
    (insertPair p l).Perm (p :: l) := by
  induction l with
  | nil => simp [insertPair]
  | cons q qs ih =>
    simp only [insertPair]
    split
    · exact List.Perm.refl _
    · exact (List.Perm.cons q ih).trans (List.Perm.swap p q qs)

theorem sortPairs_perm (l : List (String × JValue)) : (sortPairs l).Perm l := by
  induction l with
  | nil => simp [sortPairs]
  | cons p ps ih =>
    exact (insertPair_perm p (sortPairs ps)).trans (List.Perm.cons p ih)

theorem jsizePairs_perm {l1 l2 : List (String × JValue)} (h : l1.Perm l2) :
    jsizePairs l1 = jsizePairs l2 := by
  induction h with
  | nil => rfl
  | cons x _ ih =>
    obtain ⟨k, v⟩ := x
    simp [jsizePairs, ih]
  | swap x y l =>
    obtain ⟨k, v⟩ := x
    obtain ⟨k2, v2⟩ := y
    simp [jsizePairs]
    omega
  | trans _ _ ih1 ih2 => exact ih1.trans ih2

theorem jsizeList_eq_of_zip :
    ∀ (xs ys : List JValue), xs.length = ys.length →
      (∀ p ∈ List.zip xs ys, jsize p.1 = jsize p.2) → jsizeList xs = jsizeList ys := by
  intro xs
  induction xs with
  | nil =>
    intro ys h _
    cases ys with
    | nil => rfl
    | cons y ys => simp at h
  | cons x xs ih =>
    intro ys h hp
    cases ys with
    | nil => simp at h
    | cons y ys =>
      simp only [List.zip_cons_cons, List.mem_cons] at hp
      simp only [jsizeList]
      rw [hp (x, y) (Or.inl rfl), ih ys (by simpa using h) (fun p hpmem => hp p (Or.inr hpmem))]

theorem jsizePairs_eq_of_zip :
    ∀ (xs ys : List (String × JValue)), xs.length = ys.length →
      (∀ p ∈ List.zip xs ys, jsize p.1.2 = jsize p.2.2) → jsizePairs xs = jsizePairs ys := by
  intro xs
  induction xs with
  | nil =>
    intro ys h _
    cases ys with
    | nil => rfl
    | cons y ys => simp at h
  | cons x xs ih =>
    intro ys h hp
    cases ys with
    | nil => simp at h
    | cons y ys =>
      simp only [List.zip_cons_cons, List.mem_cons] at hp
      obtain ⟨k, v⟩ := x
      obtain ⟨k2, v2⟩ := y
      simp only [jsizePairs]
      rw [show jsize v = jsize v2 from hp ((k, v), (k2, v2)) (Or.inl rfl),
          ih ys (by simpa using h) (fun p hpmem => hp p (Or.inr hpmem))]

theorem keyPermF_jsize :
    ∀ (fuel : Nat) (a b : JValue), keyPermF fuel a b = true → jsize a = jsize b := by
  intro fuel
  induction fuel with
  | zero => intro a b h; simp [keyPermF] at h
  | succ fuel ih =>
    intro a b h
    cases a <;> cases b <;>
      first
        | rfl
        | simp only [keyPermF, Bool.false_eq_true] at h
    case arr.arr xs ys =>
      simp only [keyPermF, Bool.and_eq_true, beq_iff_eq, List.all_eq_true] at h
      obtain ⟨hlen, hzip⟩ := h
      simp only [jsize]
      rw [jsizeList_eq_of_zip xs ys hlen (fun p hp => ih p.1 p.2 (hzip p hp))]
    case obj.obj fs gs =>
      simp only [keyPermF, Bool.and_eq_true, beq_iff_eq, List.all_eq_true] at h
      obtain ⟨⟨⟨_, _⟩, hlen⟩, hzip⟩ := h
      simp only [jsize]
      have h1 : jsizePairs fs = jsizePairs (sortPairs fs) :=
        jsizePairs_perm (sortPairs_perm fs).symm
      have h2 : jsizePairs (sortPairs gs) = jsizePairs gs :=
        jsizePairs_perm (sortPairs_perm gs)
      have hslen : (sortPairs fs).length = (sortPairs gs).length := by
        rw [(sortPairs_perm fs).length_eq, (sortPairs_perm gs).length_eq, hlen]
      have h3 : jsizePairs (sortPairs fs) = jsizePairs (sortPairs gs) :=
        jsizePairs_eq_of_zip _ _ hslen (fun p hp => ih p.1.2 p.2.2 (hzip p hp).2)
      omega

theorem keyPermF_serializeF :
    ∀ (fuel : Nat) (a b : JValue), keyPermF fuel a b = true →
      ∀ (g : Nat), serializeF g a = serializeF g b := by
  intro fuel
  induction fuel with
  | zero => intro a b h; simp [keyPermF] at h
  | succ fuel ih =>
    intro a b h g
    cases g with
    | zero => rfl
    | succ g =>
      cases a <;> cases b <;>
        first
          | rfl
          | simp only [keyPermF, Bool.false_eq_true] at h
      case bool.bool x y =>
        simp only [beq_iff_eq] at h
        rw [h]
      case num.num n m =>
        simp only [beq_iff_eq] at h
        rw [h]
      case str.str x y =>
        simp only [beq_iff_eq] at h
        rw [h]
      case arr.arr xs ys =>
        simp only [Bool.and_eq_true, beq_iff_eq, List.all_eq_true] at h
        obtain ⟨hlen, hzip⟩ := h
        simp only [serializeF]
        rw [map_eq_of_zip (serializeF g) (serializeF g) xs ys hlen
          (fun p hp => ih p.1 p.2 (hzip p hp) g)]
      case obj.obj fs gs =>
        simp only [Bool.and_eq_true, beq_iff_eq, List.all_eq_true] at h
        obtain ⟨⟨⟨_, _⟩, hlen⟩, hzip⟩ := h
        simp only [serializeF]
        have hslen : (sortPairs fs).length = (sortPairs gs).length := by
          rw [(sortPairs_perm fs).length_eq, (sortPairs_perm gs).length_eq, hlen]
        rw [map_eq_of_zip (fun p => pyQuote p.1 ++ ": " ++ serializeF g p.2)
          (fun p => pyQuote p.1 ++ ": " ++ serializeF g p.2) _ _ hslen
          (fun p hp => by
            obtain ⟨hk, hv⟩ := hzip p hp
            simp only [hk, ih p.1.2 p.2.2 hv g])]

theorem keyPermF_dumps (fuel : Nat) (a b : JValue) (h : keyPermF fuel a b = true) :
    dumps a = dumps b := by
  have hsz := keyPermF_jsize fuel a b h
  calc dumps a = serializeF (jsize a) a := rfl
    _ = serializeF (jsize a) b := keyPermF_serializeF fuel a b h (jsize a)
    _ = serializeF (jsize b) b := by rw [hsz]
    _ = dumps b := rfl

theorem exec_unsafe (backend : Backend) (db : Option String) (q : String)
    (h : q = "" ∨ (forbidden.any fun w => strContains (strLower q) w) = true) :
    execute_mongo_query backend db (some q) = .ok (.str "UNSAFE_OR_EMPTY") := by
  rcases h with h | h
  · subst h; rfl
  · simp [execute_mongo_query, clean_query, h]

theorem processEntry_char (backend : Backend) (st : ScoreState) (e : QueryEntry)
    (g p : JValue)
    (hg : execute_mongo_query backend e.db_id e.gold_mql = .ok g)
    (hp : execute_mongo_query backend e.db_id e.generated_mql = .ok p) :
    processEntry backend st e = .ok
      ⟨(if isErrorStr p then st.correct_count
        else if compare_results g p then st.correct_count + 1 else st.correct_count),
       st.total_count + 1,
       (if isErrorStr p then st.execution_errors + 1 else st.execution_errors)⟩ := by
  unfold processEntry
  rw [hg, hp]
  cases h1 : isErrorStr p
  · cases h2 : compare_results g p
    · simp [h1, h2]
    · simp [h1, h2]
  · simp [h1]

theorem processEntry_total (backend : Backend) (st : ScoreState) (e : QueryEntry)
    (st2 : ScoreState) (h : processEntry backend st e = .ok st2) :
    st2.total_count = st.total_count + 1 := by
  cases hG : execute_mongo_query backend e.db_id e.gold_mql with
  | error err => unfold processEntry at h; rw [hG] at h; simp at h
  | ok g =>
    cases hP : execute_mongo_query backend e.db_id e.generated_mql with
    | error err => unfold processEntry at h; rw [hG, hP] at h; simp at h
    | ok p =>
      rw [processEntry_char backend st e g p hG hP] at h
      cases h
      rfl

theorem foldlM_total (backend : Backend) :
    ∀ (entries : List QueryEntry) (st0 st2 : ScoreState),
      entries.foldlM (processEntry backend) st0 = .ok st2 →
      st2.total_count = st0.total_count + entries.length := by
  intro entries
  induction entries with
  | nil =>
    intro st0 st2 h
    simp only [List.foldlM_nil] at h
    cases h
    simp
  | cons e es ih =>
    intro st0 st2 h
    rw [List.foldlM_cons] at h
    cases hstep : processEntry backend st0 e with
    | error err => rw [hstep] at h; simp [Bind.bind, Except.bind] at h
    | ok st1 =>
      rw [hstep] at h
      simp only [Bind.bind, Except.bind] at h
      have h1 := processEntry_total backend st0 e st1 hstep
      have h2 := ih st1 st2 h
      simp [h1, h2, List.length_cons]
      omega

/-! ### Claim theorems -/

/-- C1: for every pair of DocumentList successes where one list is a
permutation of the other, `compare_results` returns true — top-level
reordering never causes a non-match (the lengths agree, and either the
elementwise fast path fires or the two sets of canonical encodings
coincide). -/
theorem c1_top_level_permutation_matches (gl pl : List JValue) (h : gl.Perm pl) :
    compare_results (.arr gl) (.arr pl) = true := by
  have hlen : gl.length = pl.length := h.length_eq
  cases hpe : pyEq (.arr gl) (.arr pl) with
  | true => simp [compare_results, isStr, isNull, isNumeric, hlen, hpe]
  | false =>
    simp [compare_results, isStr, isNull, isNumeric, hlen, hpe]
    exact pySetEq_of_perm (h.map dumps)

/-- Witness for C1 at the spec example: the list holding the documents
`x:1` and `x:2` against its reversal. -/
theorem c1_top_level_permutation_matches_witness :
    ([JValue.obj [("x", .num 1)], JValue.obj [("x", .num 2)]].Perm
      [JValue.obj [("x", .num 2)], JValue.obj [("x", .num 1)]]) ∧
    compare_results (.arr [.obj [("x", .num 1)], .obj [("x", .num 2)]])
      (.arr [.obj [("x", .num 2)], .obj [("x", .num 1)]]) = true := by
  have hp := List.Perm.swap (JValue.obj [("x", .num 2)]) (JValue.obj [("x", .num 1)])
    ([] : List JValue)
  exact ⟨hp, c1_top_level_permutation_matches _ _ hp⟩

/-- C2 counterexample: two equal-length lists that are NOT multiset
permutations of each other (the left duplicates the `a` document, the
right duplicates the `b` document) are nevertheless accepted by
`compare_results`, because the comparison only tests set equality of the
encodings and both sides have the same two-element encoding set.  The
claim asserts such pairs return false; they return true. -/
theorem c2_counterexample :
    compare_results
      (.arr [.obj [("a", .num 1)], .obj [("a", .num 1)], .obj [("b", .num 2)]])
      (.arr [.obj [("a", .num 1)], .obj [("b", .num 2)], .obj [("b", .num 2)]]) = true := by
  decide

/-- C2 amended: an equal-length pair is rejected when both the
elementwise fast path fails and the two sides' sets of canonical
encodings differ (e.g. an altered or extra document whose encoding the
other side lacks); duplicate/missing documents that keep the encoding
sets equal are not rejected (see the counterexample). -/
theorem c2_amended_set_mismatch_rejected (gl pl : List JValue)
    (hlen : gl.length = pl.length)
    (hfast : pyEq (.arr gl) (.arr pl) = false)
    (hsets : pySetEq (gl.map dumps) (pl.map dumps) = false) :
    compare_results (.arr gl) (.arr pl) = false := by
  simp [compare_results, isStr, isNull, isNumeric, hlen, hfast, hsets]

/-- Witness for the amended C2: a singleton `a:1` list against a
singleton `b:2` list. -/
theorem c2_amended_set_mismatch_rejected_witness :
    ([JValue.obj [("a", .num 1)]].length = [JValue.obj [("b", .num 2)]].length) ∧
    pyEq (.arr [.obj [("a", .num 1)]]) (.arr [.obj [("b", .num 2)]]) = false ∧
    pySetEq ([JValue.obj [("a", .num 1)]].map dumps)
      ([JValue.obj [("b", .num 2)]].map dumps) = false ∧
    compare_results (.arr [.obj [("a", .num 1)]]) (.arr [.obj [("b", .num 2)]]) = false :=
  ⟨rfl, by decide, by decide,
    c2_amended_set_mismatch_rejected _ _ rfl (by decide) (by decide)⟩

/-- C5: whenever either argument of the comparator is a failure/rejected
variant (every failure of the executor is a string sentinel, and the
comparator rejects every string operand), the verdict is false — even
when both sides carry the identical failure value (instantiate `v` with
`.str s`). -/
theorem c5_failure_variant_never_matches (s : String) (v : JValue) :
    compare_results (.str s) v = false ∧ compare_results v (.str s) = false :=
  ⟨compare_str_left s v, compare_str_right s v⟩

/-- C3 counterexample: on `bGoldFail` the gold query of `eGoldFail`
fails with an execution error while the predicted query succeeds; the
claim says the record must be counted in the execution-error tally and
excluded from the incorrect count, but the run ends with zero execution
errors and the record in the incorrect bucket (the loop only inspects
the predicted result for the `ERROR` substring, and the printed
incorrect count is total minus correct). -/
theorem c3_counterexample :
    runBatch bGoldFail [eGoldFail] = .ok ⟨0, 1, 0⟩ ∧
    execute_mongo_query bGoldFail eGoldFail.db_id eGoldFail.gold_mql =
      .ok (.str "EXECUTION_ERROR: ERROR: boom") ∧
    (makeReport ⟨0, 1, 0⟩).errors = 0 ∧ (makeReport ⟨0, 1, 0⟩).incorrect = 1 :=
  ⟨rfl, rfl, rfl, rfl⟩

/-- C3 amended: for a record where neither execution raises, the loop
updates the state as follows — the total always increments; the record
joins the execution-error tally exactly when the PREDICTED result is a
string containing `ERROR` (the gold result is never consulted for this,
so gold-side failures fall through to the comparator and count as
incorrect); otherwise the record receives exactly one comparator
verdict, incrementing the correct count on a match.  The printed
incorrect count, total minus correct, therefore includes the
execution-error records. -/
theorem c3_amended_pred_only_error_tally (backend : Backend) (st : ScoreState)
    (e : QueryEntry) (g p : JValue)
    (hg : execute_mongo_query backend e.db_id e.gold_mql = .ok g)
    (hp : execute_mongo_query backend e.db_id e.generated_mql = .ok p) :
    processEntry backend st e = .ok
      ⟨(if isErrorStr p then st.correct_count
        else if compare_results g p then st.correct_count + 1 else st.correct_count),
       st.total_count + 1,
       (if isErrorStr p then st.execution_errors + 1 else st.execution_errors)⟩ :=
  processEntry_char backend st e g p hg hp

/-- Witness for the amended C3 at a record whose two queries both
succeed with an empty list. -/
theorem c3_amended_pred_only_error_tally_witness :
    (execute_mongo_query bProbe eSafe.db_id eSafe.gold_mql = .ok (.arr [])) ∧
    (execute_mongo_query bProbe eSafe.db_id eSafe.generated_mql = .ok (.arr [])) ∧
    processEntry bProbe ⟨0, 0, 0⟩ eSafe = .ok
      ⟨(if isErrorStr (.arr []) then 0
        else if compare_results (.arr []) (.arr []) then 0 + 1 else 0),
       0 + 1,
       (if isErrorStr (.arr []) then 0 + 1 else 0)⟩ :=
  ⟨rfl, rfl, c3_amended_pred_only_error_tally bProbe ⟨0, 0, 0⟩ eSafe (.arr []) (.arr []) rfl rfl⟩

/-- C4 counterexample: the predicted query of `eUnsafePred` contains the
denylist keyword `drop`, so the executor rejects it with the
`UNSAFE_OR_EMPTY` sentinel; the claim says the rejection contributes to
the execution-error tally and not to the incorrect count, but the
sentinel does not contain the substring `ERROR`, so the run ends with
zero execution errors and the record counted as incorrect. -/
theorem c4_counterexample :
    runBatch bProbe [eUnsafePred] = .ok ⟨0, 1, 0⟩ ∧
    execute_mongo_query bProbe eUnsafePred.db_id eUnsafePred.generated_mql =
      .ok (.str "UNSAFE_OR_EMPTY") ∧
    (makeReport ⟨0, 1, 0⟩).errors = 0 ∧ (makeReport ⟨0, 1, 0⟩).incorrect = 1 :=
  ⟨rfl, rfl, rfl, rfl⟩

/-- C4 amended: a record whose predicted query text is present but
rejected by the safety pre-check (denylist keyword or empty) raises no
exception and is recorded as the `UNSAFE_OR_EMPTY` execution-style
failure for that side, but it does NOT contribute to the execution-error
tally: the sentinel lacks the `ERROR` substring, so the record flows to
the comparator, which rejects the string sentinel, and the record is
counted as incorrect (total increments, correct and error counts do
not). -/
theorem c4_amended_unsafe_counts_incorrect (backend : Backend) (st : ScoreState)
    (e : QueryEntry) (q : String) (g : JValue)
    (hq : e.generated_mql = some q)
    (hrej : q = "" ∨ (forbidden.any fun w => strContains (strLower q) w) = true)
    (hg : execute_mongo_query backend e.db_id e.gold_mql = .ok g) :
    processEntry backend st e =
      .ok ⟨st.correct_count, st.total_count + 1, st.execution_errors⟩ := by
  have hp : execute_mongo_query backend e.db_id e.generated_mql =
      .ok (.str "UNSAFE_OR_EMPTY") := by
    rw [hq]; exact exec_unsafe backend e.db_id q hrej
  rw [processEntry_char backend st e g (.str "UNSAFE_OR_EMPTY") hg hp]
  have h1 : isErrorStr (JValue.str "UNSAFE_OR_EMPTY") = false := rfl
  rw [h1, compare_str_right "UNSAFE_OR_EMPTY" g]
  simp

/-- Witness for the amended C4 at `eUnsafePred` on `bProbe`. -/
theorem c4_amended_unsafe_counts_incorrect_witness :
    (eUnsafePred.generated_mql = some "db.a.drop()") ∧
    ((("db.a.drop()" : String) = "" ∨
      (forbidden.any fun w => strContains (strLower "db.a.drop()") w) = true)) ∧
    (execute_mongo_query bProbe eUnsafePred.db_id eUnsafePred.gold_mql = .ok (.arr [])) ∧
    processEntry bProbe ⟨0, 0, 0⟩ eUnsafePred = .ok ⟨0, 0 + 1, 0⟩ :=
  ⟨rfl, Or.inr (by decide), rfl,
    c4_amended_unsafe_counts_incorrect bProbe ⟨0, 0, 0⟩ eUnsafePred "db.a.drop()" (.arr [])
      rfl (Or.inr (by decide)) rfl⟩

/-- C6: a missing query field reaches the executor as `None`, and the
safety pre-check crashes on `query.lower()` with an `AttributeError`
instead of returning the rejection sentinel — the claim describes the
intended graceful rejection, the code raises. -/
theorem c6_missing_query_raises (backend : Backend) (db : Option String) :
    execute_mongo_query backend db none =
      .error (.attributeError "NoneType object has no attribute lower") := rfl

/-- C7 counterexample: for an ABSENT query the executor does not return
the `UnsafeRejected` sentinel as the claim states — it raises
(`AttributeError` from the pre-check) instead. -/
theorem c7_counterexample :
    execute_mongo_query bProbe (some "db1") none ≠ .ok (.str "UNSAFE_OR_EMPTY") := by
  intro h
  exact nomatch h

/-- C7 amended: for every PRESENT query text that contains a denylist
keyword case-insensitively anywhere (string literals and field names
included) or is empty, the executor returns the `UNSAFE_OR_EMPTY`
sentinel, and it does so for every backend — the backend-invocation
branch is never consulted.  An absent query instead raises
`AttributeError` (see the counterexample). -/
theorem c7_amended_present_text_rejected (backend : Backend) (db : Option String)
    (q : String)
    (hrej : q = "" ∨ (forbidden.any fun w => strContains (strLower q) w) = true) :
    execute_mongo_query backend db (some q) = .ok (.str "UNSAFE_OR_EMPTY") :=
  exec_unsafe backend db q hrej

/-- Witness for the amended C7: the keyword occurs uppercase inside a
string literal of the query, and the query is still rejected. -/
theorem c7_amended_present_text_rejected_witness :
    ((("db.users.find(\"DROPPED\")" : String) = "" ∨
      (forbidden.any fun w => strContains (strLower "db.users.find(\"DROPPED\")") w) = true)) ∧
    execute_mongo_query bProbe (some "db1") (some "db.users.find(\"DROPPED\")") =
      .ok (.str "UNSAFE_OR_EMPTY") :=
  ⟨Or.inr (by decide),
    c7_amended_present_text_rejected bProbe (some "db1") "db.users.find(\"DROPPED\")"
      (Or.inr (by decide))⟩

/-- C8: two mapping-shaped documents that are equal up to key insertion
order at every nesting level (formalised by `keyPermF`: duplicate-free
keys, and after key-sorting both sides the bindings agree pointwise with
the values again so related) receive identical canonical encodings, and
the two documents are judged equal when compared as singleton
DocumentLists. -/
theorem c8_key_order_insensitive (fs gs : List (String × JValue)) (fuel : Nat)
    (h : keyPermF fuel (.obj fs) (.obj gs) = true) :
    dumps (.obj fs) = dumps (.obj gs) ∧
    compare_results (.arr [.obj fs]) (.arr [.obj gs]) = true := by
  have hd : dumps (.obj fs) = dumps (.obj gs) := keyPermF_dumps fuel _ _ h
  refine ⟨hd, ?_⟩
  cases hpe : pyEq (.arr [.obj fs]) (.arr [.obj gs]) with
  | true => simp [compare_results, isStr, isNull, isNumeric, hpe]
  | false =>
    simp [compare_results, isStr, isNull, isNumeric, hpe]
    rw [hd]
    exact pySetEq_of_perm (List.Perm.refl _)

/-- Witness for C8 at the spec example `a:1, b:2` against `b:2, a:1`. -/
theorem c8_key_order_insensitive_witness :
    keyPermF 2 (.obj [("a", .num 1), ("b", .num 2)])
      (.obj [("b", .num 2), ("a", .num 1)]) = true ∧
    dumps (.obj [("a", .num 1), ("b", .num 2)]) =
      dumps (.obj [("b", .num 2), ("a", .num 1)]) ∧
    compare_results (.arr [.obj [("a", .num 1), ("b", .num 2)]])
      (.arr [.obj [("b", .num 2), ("a", .num 1)]]) = true := by
  have h : keyPermF 2 (.obj [("a", .num 1), ("b", .num 2)])
      (.obj [("b", .num 2), ("a", .num 1)]) = true := by decide
  obtain ⟨h1, h2⟩ := c8_key_order_insensitive _ _ 2 h
  exact ⟨h, h1, h2⟩

/-- C9: whenever the batch loop completes without an uncaught exception,
the report carries the total (equal to the number of input records), the
correct count, the incorrect count printed as total minus correct, the
execution-error count, and the accuracy percentage, which equals
correct divided by total times 100 when the total is positive and 0 on
an empty batch — with no division error (the division is total on the
rationals and guarded by the positivity test). -/
theorem c9_report_shape (backend : Backend) (entries : List QueryEntry) (st : ScoreState)
    (h : runBatch backend entries = .ok st) :
    (makeReport st).total = entries.length ∧
    (makeReport st).correct = st.correct_count ∧
    (makeReport st).incorrect = st.total_count - st.correct_count ∧
    (makeReport st).errors = st.execution_errors ∧
    (makeReport st).accuracy =
      (if 0 < st.total_count then (st.correct_count : ℚ) / (st.total_count : ℚ) * 100
       else 0) ∧
    (entries = [] → (makeReport st).accuracy = 0) := by
  have ht : st.total_count = entries.length := by
    have h0 := foldlM_total backend entries ⟨0, 0, 0⟩ st h
    simpa using h0
  refine ⟨by simp [makeReport, ht], rfl, rfl, rfl, rfl, ?_⟩
  intro he
  subst he
  simp [makeReport, accuracyOf, ht]

/-- Witness for C9 on the empty batch: accuracy 0 with no division
error. -/
theorem c9_report_shape_witness :
    (runBatch bProbe [] = .ok ⟨0, 0, 0⟩) ∧
    ((makeReport (⟨0, 0, 0⟩ : ScoreState)).total = ([] : List QueryEntry).length ∧
     (makeReport (⟨0, 0, 0⟩ : ScoreState)).correct = (⟨0, 0, 0⟩ : ScoreState).correct_count ∧
     (makeReport (⟨0, 0, 0⟩ : ScoreState)).incorrect =
       (⟨0, 0, 0⟩ : ScoreState).total_count - (⟨0, 0, 0⟩ : ScoreState).correct_count ∧
     (makeReport (⟨0, 0, 0⟩ : ScoreState)).errors =
       (⟨0, 0, 0⟩ : ScoreState).execution_errors ∧
     (makeReport (⟨0, 0, 0⟩ : ScoreState)).accuracy =
       (if 0 < (⟨0, 0, 0⟩ : ScoreState).total_count then
          ((⟨0, 0, 0⟩ : ScoreState).correct_count : ℚ) /
            ((⟨0, 0, 0⟩ : ScoreState).total_count : ℚ) * 100
        else 0) ∧
     (([] : List QueryEntry) = [] → (makeReport (⟨0, 0, 0⟩ : ScoreState)).accuracy = 0)) :=
  ⟨rfl, c9_report_shape bProbe [] ⟨0, 0, 0⟩ rfl⟩

/-- C10: when both executions succeed and both decoded values are
strings (possible, since a query can legitimately return a JSON string),
the comparator returns false even for identical strings: at the
comparator's interface a string-valued success is indistinguishable from
a failure sentinel. -/
theorem c10_string_result_never_correct (backend : Backend) (db gq pq : Option String)
    (gs ps : String)
    (_hg : execute_mongo_query backend db gq = .ok (.str gs))
    (_hp : execute_mongo_query backend db pq = .ok (.str ps)) :
    compare_results (.str gs) (.str ps) = false :=
  compare_str_left gs (.str ps)

/-- Witness for C10: on `bStr` both sides succeed with the identical
decoded string `hi`, and the comparator still answers false. -/
theorem c10_string_result_never_correct_witness :
    (execute_mongo_query bStr (some "db1") (some "db.a.find()") = .ok (.str "hi")) ∧
    compare_results (.str "hi") (.str "hi") = false :=
  ⟨rfl, c10_string_result_never_correct bStr (some "db1") (some "db.a.find()")
    (some "db.a.find()") "hi" "hi" rfl rfl⟩
